import Mathlib

/-!
Verification of the ingestion-to-query pipeline of the CSV/XLSX-to-SQL
Streamlit application.  The definitions below are a shallow embedding of
`src/runqueriesoncsvexcel.py` (and, for the execute-button orchestration,
`src/app.py`): pure Lean functions mirroring the Python functions, with
the SQLite backend modelled as an association list of named tables and
connections modelled explicitly (a `:memory:` connection starts empty and
is discarded on close; a file-backed connection reads and writes the
file's database).
-/

set_option maxRecDepth 10000

namespace CsvSql

/-- Configuration constant `DB_NAME` from the source. -/
def DB_NAME : String := "streamlit_data.db"

/-- Configuration constant `TABLE_NAME` from the source. -/
def TABLE_NAME : String := "transactions"

/-! ## String helpers modelling Python string primitives -/

/-- Model of Python's `\s` whitespace class (ASCII range). -/
def pyIsSpace (c : Char) : Bool :=
  c = ' ' || c = '\t' || c = '\n' || c = '\r' || c = Char.ofNat 11 || c = Char.ofNat 12

/-- Model of Python's `str.strip()`: drop whitespace from both ends. -/
def pyStrip (s : String) : String :=
  String.mk (((s.data.dropWhile pyIsSpace).reverse.dropWhile pyIsSpace).reverse)

/-- Model of Python's `str.lower()` (ASCII case folding). -/
def strToLower (s : String) : String :=
  String.mk (s.data.map Char.toLower)

/-- Model of Python's `str.upper()` (ASCII case folding). -/
def strToUpper (s : String) : String :=
  String.mk (s.data.map Char.toUpper)

/-- Whether the first list is a leading segment of the second. -/
def listStartsWith : List Char → List Char → Bool
  | [], _ => true
  | _ :: _, [] => false
  | a :: as, b :: bs => if a = b then listStartsWith as bs else false

/-- Whether the first list occurs contiguously inside the second. -/
def listIsInfixOf (needle : List Char) : List Char → Bool
  | [] => listStartsWith needle []
  | b :: bs => listStartsWith needle (b :: bs) || listIsInfixOf needle bs

/-- Model of Python's `sub in hay` substring test. -/
def strContains (hay sub : String) : Bool :=
  listIsInfixOf sub.data hay.data

/-- Model of Python's `str.endswith(suffix)`. -/
def strEndsWith (s suffix : String) : Bool :=
  listStartsWith suffix.data.reverse s.data.reverse

/-! ## Schema Extractor: header processing (`runqueriesoncsvexcel.py` lines 197-208) -/

/-- Model of `'$' in str(col_name)`. -/
def headerHasDollar (h : String) : Bool :=
  h.data.contains '$'

/-- Model of `col_name.replace('$', '')`: removing every occurrence of a
single character is filtering it out of the character sequence. -/
def stripDollars (h : String) : String :=
  String.mk (h.data.filter (fun c => !(c = '$')))

/-- Header processing step of the Schema Extractor: if any stringified
column name contains `'$'`, strip it from all column names and emit an
advisory (the returned `Bool`).  Mirrors lines 197-208 of
`runqueriesoncsvexcel.py`. -/
def process_file_headers (headers : List String) : List String × Bool :=
  if headers.any headerHasDollar then
    (headers.map stripDollars, true)
  else
    (headers, false)

/-! ## Relation Store: table-name sanitization (`runqueriesoncsvexcel.py` lines 34-36) -/

/-- Character-level sanitization: `c if c.isalnum() else "_"`. -/
def sanitizeChars (cs : List Char) : List Char :=
  cs.map (fun c => if c.isAlphanum then c else '_')

/-- Model of the table-name sanitization in `load_df_to_sqlite`:
replace every non-alphanumeric character with `'_'`; if the result is
empty, fall back to `"default_imported_data"`. -/
def sanitizeTableName (tableName : String) : String :=
  let sane := sanitizeChars tableName.data
  if sane.isEmpty then "default_imported_data" else String.mk sane

/-! ## Data model: tables, databases, worlds, connections -/

/-- A materialized table: an ordered header row and data rows of string
cells (the scalar cells of a TabularValue, rendered as text). -/
structure Table where
  header : List String
  rows : List (List String)
deriving Repr, DecidableEq

/-- A SQLite database: a finite map from relation names to tables,
represented as an association list (latest binding first). -/
def DBase := List (String × Table)

instance : DecidableEq DBase := by
  unfold DBase
  infer_instance

/-- Drop a relation by name (the `DROP TABLE` a replace-mode write issues
on a pre-existing relation). -/
def dbDrop (db : DBase) (n : String) : DBase :=
  db.filter (fun q => decide (q.1 ≠ n))

/-- Store a relation under a name, replacing any previous binding:
drop whatever was there, then bind the new table. -/
def dbSet (db : DBase) (n : String) (t : Table) : DBase :=
  (n, t) :: dbDrop db n

/-- Look up a relation by name. -/
def dbGet (db : DBase) (n : String) : Option Table :=
  (db.find? (fun q => decide (q.1 = n))).map (fun q => q.2)

/-- The file system as seen by `sqlite3.connect`: database files on disk,
keyed by path. -/
structure World where
  files : List (String × DBase)
deriving DecidableEq

/-- Model of `os.path.exists(db_path)` for database files. -/
def fileExists (w : World) (p : String) : Bool :=
  (w.files.find? (fun q => decide (q.1 = p))).isSome

/-- Contents of a database file (a freshly created file is empty, as is a
path not on disk yet — `sqlite3.connect` creates it). -/
def readFileDB (w : World) (p : String) : DBase :=
  match w.files.find? (fun q => decide (q.1 = p)) with
  | some q => q.2
  | none => []

/-- Model of `sqlite3.connect(db_path)`: a `":memory:"` connection opens
a fresh empty database; a file connection opens the file's contents. -/
def connect (w : World) (p : String) : DBase :=
  if p = ":memory:" then [] else readFileDB w p

/-- Model of `conn.close()`: an in-memory database is discarded; a file
connection writes its database back to disk. -/
def closeConn (w : World) (p : String) (conn : DBase) : World :=
  if p = ":memory:" then w
  else { files := (p, conn) :: w.files.filter (fun q => decide (q.1 ≠ p)) }

/-! ## Relation Store: `load_df_to_sqlite` (`runqueriesoncsvexcel.py` lines 28-46) -/

/-- First column name that collides with an earlier one, if any. -/
def firstDup : List String → Option String
  | [] => none
  | h :: t => if h ∈ t then some h else firstDup t

/-- Modelled backend behavior of `df.to_sql(name, conn, if_exists="replace",
index=False)` on SQLite. Replace mode first drops any pre-existing
relation of that name and then issues the `CREATE TABLE`; for a frame
with a duplicated column name the create fails with sqlite's "duplicate
column name" error (raised as an exception inside `load_df_to_sqlite`'s
`try`), but the drop is DDL that has already autocommitted, so the
returned connection state has the relation dropped on the error path
too. On success the relation is created anew, fully replacing any
previous contents. -/
def to_sql_replace (df : Table) (conn : DBase) (name : String) : DBase × Option String :=
  match firstDup df.header with
  | some c => (dbDrop conn name, some ("duplicate column name: " ++ c))
  | none => (dbSet conn name df, none)

/-- The pipeline's session-scoped state (`st.session_state` fields that the
pipeline reads and writes). `jsonDataForDownload` stands for the serialized
download payload, represented by the table it serializes. -/
structure SessionState where
  dbPathForQuery : String
  tableLoaded : Bool
  currentTableName : String
  dfLoaded : Option Table
  headers : Option (List String)
  uploadedFileName : Option String
  generatedSqlQuery : Option String
  jsonDataForDownload : Option Table
deriving Repr, DecidableEq

/-- Session state right after initialization (lines 103-115). -/
def initialState : SessionState :=
  { dbPathForQuery := DB_NAME
    tableLoaded := false
    currentTableName := TABLE_NAME
    dfLoaded := none
    headers := none
    uploadedFileName := none
    generatedSqlQuery := none
    jsonDataForDownload := none }

/-- Result of `load_df_to_sqlite`: the world after the connection is
closed, the updated session state, and the error message shown via
`st.error` when loading failed. -/
structure LoadOutcome where
  world : World
  state : SessionState
  errorMsg : Option String
deriving DecidableEq

/-- Model of `load_df_to_sqlite(df, db_path, table_name)`: open a
connection, sanitize the table name, write the frame with replace
semantics, record success or failure in session state, and close the
connection on every path (the `finally`). On failure the connection as
left by the failed `to_sql` — with any pre-existing relation already
dropped — is what the `finally` closes. -/
def load_df_to_sqlite (df : Table) (dbPath tableName : String)
    (w : World) (st : SessionState) : LoadOutcome :=
  let conn := connect w dbPath
  let sane := sanitizeTableName tableName
  match to_sql_replace df conn sane with
  | (conn2, none) =>
      { world := closeConn w dbPath conn2
        state := { st with dbPathForQuery := dbPath, tableLoaded := true,
                           currentTableName := sane }
        errorMsg := none }
  | (conn2, some e) =>
      { world := closeConn w dbPath conn2
        state := { st with tableLoaded := false }
        errorMsg := some ("Error loading DataFrame to SQLite: " ++ e) }

/-! ## Query Executor: `execute_query_on_db` (`runqueriesoncsvexcel.py` lines 81-96) -/

/-- The query statements exercised against the backend in this
development. `selectAllFrom t` is `SELECT * FROM t`. -/
inductive Query where
  | selectAllFrom (table : String)
deriving Repr, DecidableEq

/-- Whether a statement references a given relation name. -/
def referencesTable (q : Query) (n : String) : Prop :=
  match q with
  | Query.selectAllFrom t => t = n

/-- Modelled backend behavior of `pd.read_sql_query`: running a statement
against a database either materializes all result rows or raises with
sqlite's error text ("no such table: t" when the relation is absent). -/
def run_sql (db : DBase) : Query → Except String Table
  | Query.selectAllFrom t =>
      match dbGet db t with
      | some tbl => Except.ok tbl
      | none => Except.error ("no such table: " ++ t)

/-- Classified result of the Query Executor, one constructor per return
branch of `execute_query_on_db`, each carrying the exact message string
the source builds. -/
inductive ExecResult where
  | table (t : Table)
  | dbFileNotFound (msg : String)
  | memTableNotLoaded (msg : String)
  | relationNotLoaded (msg : String)
  | executionError (msg : String)
deriving Repr, DecidableEq

/-- The `except` branch of `execute_query_on_db`: a backend error whose
lowered text contains "no such table" together with the configured
relation name becomes the relation-not-loaded message with reload
guidance; every other backend error is wrapped with its raw message. -/
def classify_exec_error (e tableNameForErr : String) : ExecResult :=
  if strContains (strToLower e) "no such table" &&
     strContains (strToLower e) tableNameForErr then
    ExecResult.relationNotLoaded
      ("Error: " ++ e ++ ". Table '" ++ tableNameForErr ++ "' not found. Reload file.")
  else
    ExecResult.executionError ("Error executing query: " ++ e)

/-- Model of `execute_query_on_db(query, db_path, table_name)`: the two
pre-execution guards, then a scoped connection running the statement, with
every exception classified (never re-raised) and the connection closed on
all paths. -/
def execute_query_on_db (q : Query) (dbPath tableNameForErr : String)
    (w : World) (tableLoaded : Bool) : ExecResult :=
  if fileExists w dbPath = false ∧ dbPath ≠ ":memory:" then
    ExecResult.dbFileNotFound "Database file not found."
  else if tableLoaded = false ∧ dbPath = ":memory:" then
    ExecResult.memTableNotLoaded "Table not loaded into in-memory DB."
  else
    match run_sql (connect w dbPath) q with
    | Except.ok t => ExecResult.table t
    | Except.error e => classify_exec_error e tableNameForErr

/-! ## Response Parser (`runqueriesoncsvexcel.py` lines 68-76)

The source extracts a statement from the model's raw text with
`re.search(r"(three backticks)(?:sql)?\s*(.*?)\s*(three backticks)", raw, DOTALL | IGNORECASE)`
and, when no fenced block matches, strips a leading `sql` token with
`re.sub(r"^\s*sql\s+", "", raw, IGNORECASE)` and checks the leading
keyword. The functions below implement that search on character lists. -/

/-- The code-fence marker of the source's regex. -/
def fenceMarker : String := "```"

/-- Drop a leading fence marker, if present. -/
def dropTicks (cs : List Char) : Option (List Char) :=
  if listStartsWith fenceMarker.data cs then some (cs.drop 3) else none

/-- Scan for the first fence marker and return what follows it. -/
def findFenceOpen : List Char → Option (List Char)
  | [] => none
  | c :: rest =>
      match dropTicks (c :: rest) with
      | some after => some after
      | none => findFenceOpen rest

/-- Drop the optional (case-insensitive) `sql` tag right after an opening
fence, as `(?:sql)?` does. -/
def dropSqlTag (cs : List Char) : List Char :=
  match cs with
  | a :: b :: c :: rest =>
      if a.toLower = 's' ∧ b.toLower = 'q' ∧ c.toLower = 'l' then rest else cs
  | _ => cs

/-- Whether the closing `\s*`-then-fence pattern matches at this position. -/
def closeHere (cs : List Char) : Bool :=
  (dropTicks (cs.dropWhile pyIsSpace)).isSome

/-- Lazy scan for the closing fence: the block's interior is everything
before the earliest position where whitespace followed by a fence marker
begins. `none` when no closing fence exists. -/
def takeToClose : List Char → Option (List Char)
  | [] => none
  | c :: rest =>
      if closeHere (c :: rest) then some []
      else (takeToClose rest).map (fun l => c :: l)

/-- Model of the fenced-block search: interior of the first fenced block
(`group(1)` of the regex), or `none` when the text has no fenced block. -/
def extractFence (cs : List Char) : Option (List Char) :=
  match findFenceOpen cs with
  | none => none
  | some afterOpen => takeToClose (dropSqlTag afterOpen)

/-- Model of `re.sub(r"^\s*sql\s+", "", raw, flags=IGNORECASE)`: remove a
leading whitespace-`sql`-whitespace run when present, else leave the text
unchanged. -/
def dropLeadingSqlWord (cs : List Char) : List Char :=
  match cs.dropWhile pyIsSpace with
  | a :: b :: c :: d :: rest =>
      if a.toLower = 's' ∧ b.toLower = 'q' ∧ c.toLower = 'l' ∧ pyIsSpace d then
        rest.dropWhile pyIsSpace
      else cs
  | _ => cs

/-- The eight statement-leading keywords of the source's tuple. -/
def KEYWORDS : List String :=
  ["SELECT", "INSERT", "UPDATE", "DELETE", "WITH", "CREATE", "ALTER", "DROP"]

/-- Model of `sql_query.upper().startswith((eight keywords))`. -/
def startsWithKeyword (q : String) : Bool :=
  KEYWORDS.any (fun k => listStartsWith k.data (strToUpper q).data)

/-- The response-parsing tail of `generate_sql_query` (lines 68-76):
strip the response, prefer a fenced block's trimmed interior, otherwise
strip a leading `sql` token and flag an `AmbiguousOutput` advisory (the
returned `Bool`, the `st.warning` of line 75) when no known leading
keyword matches; the statement is returned in every case. -/
def generate_sql_parse (responseText : String) : String × Bool :=
  let rawResponse := pyStrip responseText
  match extractFence rawResponse.data with
  | some interior => (pyStrip (String.mk interior), false)
  | none =>
      let sq := pyStrip (String.mk (dropLeadingSqlWord rawResponse.data))
      (sq, !startsWithKeyword sq)

/-! ## Schema Extractor: upload processing (`runqueriesoncsvexcel.py` lines 172-227) -/

/-- Extension dispatch of lines 174-179: `df_temp` starts as `None`, a
`.csv` name takes the delimited-text parse, an `.xls`/`.xlsx` name the
spreadsheet parse, and any other name leaves `df_temp` as `None`. The
parses themselves are parameters (they are pandas calls); a parse that
raises is an `Except.error`. -/
def dispatch_extension (fileName : String)
    (csvParse xlsxParse : Except String Table) : Except String (Option Table) :=
  if strEndsWith fileName ".csv" then csvParse.map some
  else if strEndsWith fileName ".xls" || strEndsWith fileName ".xlsx" then xlsxParse.map some
  else Except.ok none

/-- Outcome of the upload-processing block: the new session state, the
`st.error` message if the parse raised, and whether the `'$'` advisory
was shown. -/
structure UploadOutcome where
  state : SessionState
  errorMsg : Option String
  advisory : Bool
deriving DecidableEq

/-- Model of the `if st.session_state.df_loaded is None:` block (lines
172-227): parse by extension, process headers, store the frame and its
headers (and the serialized download payload) in session state; a raised
parse error clears those fields and surfaces `st.error`; a file of
unsupported extension leaves `df_temp` as `None` and the block does
nothing further. -/
def process_upload (fileName : String)
    (csvParse xlsxParse : Except String Table) (st : SessionState) : UploadOutcome :=
  if st.dfLoaded ≠ none then { state := st, errorMsg := none, advisory := false }
  else
    match dispatch_extension fileName csvParse xlsxParse with
    | Except.error e =>
        { state := { st with dfLoaded := none, headers := none,
                             jsonDataForDownload := none }
          errorMsg := some ("Error parsing file or processing headers: " ++ e)
          advisory := false }
    | Except.ok none => { state := st, errorMsg := none, advisory := false }
    | Except.ok (some df) =>
        let processed := process_file_headers df.header
        let df2 : Table := { header := processed.1, rows := df.rows }
        { state := { st with dfLoaded := some df2, headers := some processed.1,
                             jsonDataForDownload := some df2 }
          errorMsg := none
          advisory := processed.2 }

/-! ## Orchestrator: reset on file-identity change (`runqueriesoncsvexcel.py` lines 156-163) -/

/-- Clear the TabularValue (`df_loaded = None`). -/
def clearDf (st : SessionState) : SessionState :=
  { st with dfLoaded := none }

/-- Clear the relation-loaded flag (`table_loaded = False`). -/
def clearTableFlag (st : SessionState) : SessionState :=
  { st with tableLoaded := false }

/-- Clear the header list (`headers = None`). -/
def clearHeaders (st : SessionState) : SessionState :=
  { st with headers := none }

/-- Clear the last query and result payload (`json_data_for_download =
None`, `generated_sql_query = None`). -/
def clearQueryResult (st : SessionState) : SessionState :=
  { st with jsonDataForDownload := none, generatedSqlQuery := none }

/-- Record the new file identity and reset the table name to
`TABLE_NAME`. -/
def setFileIdentity (st : SessionState) (n : String) : SessionState :=
  { st with uploadedFileName := some n, currentTableName := TABLE_NAME }

/-- Model of lines 156-163: when the uploaded file's name differs from
the session's, the downstream fields are reset in the source's statement
order — TabularValue, loaded flag, headers, query/result — and the new
identity recorded; an unchanged identity leaves the state untouched. -/
def reset_on_file_change (st : SessionState) (newName : String) : SessionState :=
  if st.uploadedFileName = some newName then st
  else setFileIdentity (clearQueryResult (clearHeaders (clearTableFlag (clearDf st)))) newName

/-! ## Orchestrator: execute-button step (`app.py` lines 203-226)

This is the one place the spec's retry talk could come from: `app.py`
guards the button on `table_loaded`, contains a conditional in-memory
re-population of the table, and then runs the executor once.
(`runqueriesoncsvexcel.py` lines 289-295 runs the executor once with no
conditional at all.) -/

/-- Outcome of one press of the execute button: the world and session
state afterwards, the executor's result (`none` when the guard aborted
before executing), and how many relation loads and executor runs the
step performed. -/
structure ExecButtonOutcome where
  world : World
  state : SessionState
  result : Option ExecResult
  reloadCount : Nat
  execCount : Nat

/-- Model of `app.py` lines 203-226: abort with an error when the loaded
flag is unset; otherwise re-populate the in-memory table when (and only
when) the path is `":memory:"` and the loaded flag is unset — a condition
that cannot hold here — and then run the executor exactly once on the
generated statement. -/
def execute_button_step (w : World) (st : SessionState) (q : Query) : ExecButtonOutcome :=
  if st.tableLoaded = false then
    { world := w, state := st, result := none, reloadCount := 0, execCount := 0 }
  else
    let step1 : World × SessionState × Nat :=
      if st.dbPathForQuery = ":memory:" ∧ st.tableLoaded = false then
        match st.dfLoaded with
        | some df =>
            let out := load_df_to_sqlite df ":memory:" TABLE_NAME w st
            (out.world, out.state, 1)
        | none => (w, st, 1)
      else (w, st, 0)
    { world := step1.1
      state := step1.2.1
      result := some (execute_query_on_db q step1.2.1.dbPathForQuery TABLE_NAME
                        step1.1 step1.2.1.tableLoaded)
      reloadCount := step1.2.2
      execCount := 1 }

/-! ## Shared concrete inputs for witnesses and counterexamples -/

/-- A small sample table with distinct headers. -/
def tSample : Table := { header := ["Amount", "Date"], rows := [["1", "2024-01-01"]] }

/-- An empty table under the relation's configured name, with one column. -/
def tEmptyA : Table := { header := ["a"], rows := [] }

/-- An empty file system. -/
def wEmpty : World := { files := [] }

/-- A world whose persistent database file holds an empty `transactions`
relation. -/
def wLoaded : World := { files := [(DB_NAME, [(TABLE_NAME, tEmptyA)])] }

/-- A session that selected the in-memory backend and has loaded a frame. -/
def stMem : SessionState :=
  { initialState with dbPathForQuery := ":memory:", tableLoaded := true,
                      dfLoaded := some tSample }

/-- A session mid-pipeline on file `A.csv`, with stale downstream fields. -/
def stStale : SessionState :=
  { initialState with uploadedFileName := some "A.csv", dfLoaded := some tSample,
                      tableLoaded := true, headers := some ["Amount", "Date"],
                      generatedSqlQuery := some "SELECT * FROM transactions",
                      jsonDataForDownload := some tSample }

/-! ## Helper lemmas -/

/-- Stripping `'$'` leaves no `'$'` in a column name. -/
theorem dollar_not_mem_stripDollars (h : String) : '$' ∉ (stripDollars h).data := by
  intro hmem
  unfold stripDollars at hmem
  simp [List.mem_filter] at hmem

/-- `firstDup` finds nothing exactly on duplicate-free lists. -/
theorem firstDup_eq_none {l : List String} : firstDup l = none ↔ l.Nodup := by
  induction l with
  | nil => simp [firstDup]
  | cons h t ih =>
    by_cases hm : h ∈ t
    · simp [firstDup, hm, List.nodup_cons]
    · simp [firstDup, hm, List.nodup_cons, ih]

/-- Lookup after store finds the stored table. -/
theorem dbGet_dbSet_self (db : DBase) (n : String) (t : Table) :
    dbGet (dbSet db n t) n = some t := by
  unfold dbGet dbSet
  rw [List.find?_cons_of_pos _ (by simp)]
  rfl

/-- Storing twice under one name is storing the later table once. -/
theorem dbSet_dbSet (db : DBase) (n : String) (t t' : Table) :
    dbSet (dbSet db n t) n t' = dbSet db n t' := by
  unfold dbSet dbDrop
  rw [List.filter_cons]
  simp [List.filter_filter]

/-- Lookup after a drop of the same name finds nothing. -/
theorem dbGet_dbDrop_self (db : DBase) (n : String) :
    dbGet (dbDrop db n) n = none := by
  unfold dbGet dbDrop
  induction db with
  | nil => rfl
  | cons h t ih =>
    rw [List.filter_cons]
    by_cases hh : h.1 = n
    · rw [if_neg (by simp [hh])]
      exact ih
    · rw [if_pos (by simp [hh])]
      rw [List.find?_cons_of_neg _ (by simp [hh])]
      exact ih

/-- Reading a file just written returns what was written. -/
theorem readFileDB_closeConn (w : World) (p : String) (conn : DBase)
    (hp : p ≠ ":memory:") : readFileDB (closeConn w p conn) p = conn := by
  unfold readFileDB closeConn
  rw [if_neg hp]
  rw [List.find?_cons_of_pos _ (by simp)]

/-- A database file exists after a file-backed connection closed onto it. -/
theorem fileExists_closeConn (w : World) (p : String) (conn : DBase)
    (hp : p ≠ ":memory:") : fileExists (closeConn w p conn) p = true := by
  unfold fileExists closeConn
  rw [if_neg hp]
  rw [List.find?_cons_of_pos _ (by simp)]
  rfl

/-- A fresh connection to a just-written file sees the written database. -/
theorem connect_closeConn (w : World) (p : String) (conn : DBase)
    (hp : p ≠ ":memory:") : connect (closeConn w p conn) p = conn := by
  unfold connect
  rw [if_neg hp, readFileDB_closeConn w p conn hp]

/-- Writing a file twice keeps only the later write. -/
theorem closeConn_closeConn (w : World) (p : String) (c c' : DBase)
    (hp : p ≠ ":memory:") : closeConn (closeConn w p c) p c' = closeConn w p c' := by
  unfold closeConn
  rw [if_neg hp, if_neg hp, if_neg hp]
  congr 1
  rw [List.filter_cons]
  simp [List.filter_filter]

/-- A fresh connection to a target onto which a connection with the
relation dropped was closed sees no relation under that name (an
in-memory target is discarded wholesale; a file target persists the
drop). -/
theorem dbGet_connect_closeConn_dbDrop (w : World) (p n : String) (db : DBase) :
    dbGet (connect (closeConn w p (dbDrop db n)) p) n = none := by
  by_cases hp : p = ":memory:"
  · subst hp
    unfold connect
    rw [if_pos rfl]
    rfl
  · rw [connect_closeConn _ _ _ hp]
    exact dbGet_dbDrop_self db n

/-! ## Claims -/

/-- C1: whenever any stringified column name contains `'$'`, the Schema
Extractor's header processing strips every `'$'` from all column names,
emits the advisory, and returns the sanitized list. -/
theorem C1_dollar_stripping (headers : List String)
    (h : headers.any headerHasDollar = true) :
    (process_file_headers headers).1 = headers.map stripDollars ∧
    (process_file_headers headers).2 = true ∧
    ∀ n ∈ (process_file_headers headers).1, '$' ∉ n.data := by
  refine ⟨by simp [process_file_headers, h], by simp [process_file_headers, h], ?_⟩
  intro n hn
  simp only [process_file_headers, h, if_true, List.mem_map] at hn
  obtain ⟨a, -, rfl⟩ := hn
  exact dollar_not_mem_stripDollars a

/-- C1 witness: headers `["Amount$", "Date"]` yield `["Amount", "Date"]`
with the advisory. -/
theorem C1_witness :
    (process_file_headers ["Amount$", "Date"]).1 = ["Amount", "Date"] ∧
    (process_file_headers ["Amount$", "Date"]).2 = true :=
  ⟨by rw [(C1_dollar_stripping ["Amount$", "Date"] (by decide)).1]; decide,
   (C1_dollar_stripping ["Amount$", "Date"] (by decide)).2.1⟩

/-- C3: on raw text with no fenced block whose stripped form begins with
none of the eight keywords, the Response Parser still returns the trimmed
best-effort statement, together with the `AmbiguousOutput` advisory. -/
theorem C3_parser_fail_open (responseText : String)
    (hfence : extractFence (pyStrip responseText).data = none)
    (hkw : startsWithKeyword
      (pyStrip (String.mk (dropLeadingSqlWord (pyStrip responseText).data))) = false) :
    generate_sql_parse responseText =
      (pyStrip (String.mk (dropLeadingSqlWord (pyStrip responseText).data)), true) := by
  simp only [generate_sql_parse]
  rw [hfence, hkw]
  rfl

/-- C3 witness: Scenario C, `"Sure! SELECT * FROM transactions"`. -/
theorem C3_witness :
    generate_sql_parse "Sure! SELECT * FROM transactions" =
      ("Sure! SELECT * FROM transactions", true) := by
  rw [C3_parser_fail_open "Sure! SELECT * FROM transactions" (by decide) (by decide)]
  decide

/-- C4 counterexample: with the in-memory backend selected, the loaded
flag set and the TabularValue still in session state, executing the
generated statement yields `RelationNotLoaded`, yet the orchestrator
performs zero automatic re-loads and runs the executor exactly once — not
the claimed one re-load followed by a retry. -/
theorem C4_counterexample :
    (execute_button_step wEmpty stMem (Query.selectAllFrom "transactions")).result =
      some (ExecResult.relationNotLoaded
        "Error: no such table: transactions. Table 'transactions' not found. Reload file.") ∧
    (execute_button_step wEmpty stMem (Query.selectAllFrom "transactions")).reloadCount = 0 ∧
    (execute_button_step wEmpty stMem (Query.selectAllFrom "transactions")).execCount = 1 := by
  decide

/-- C4 (amended): the orchestrator never re-loads and never retries: each
press of the execute button performs zero relation loads, at most one
executor run, and leaves world and session state unchanged, whatever the
executor's outcome. -/
theorem C4_no_retry (w : World) (st : SessionState) (q : Query) :
    (execute_button_step w st q).reloadCount = 0 ∧
    (execute_button_step w st q).execCount ≤ 1 ∧
    (execute_button_step w st q).world = w ∧
    (execute_button_step w st q).state = st := by
  by_cases h : st.tableLoaded = false
  · simp [execute_button_step, h]
  · have hcond : ¬(st.dbPathForQuery = ":memory:" ∧ st.tableLoaded = false) :=
      fun hc => h hc.2
    simp [execute_button_step, h, hcond]

/-- C6: table-name sanitization yields only alphanumerics and
underscores, and an empty sanitization result (in particular the empty
name) is replaced by the fixed fallback name. -/
theorem C6_sanitize_safe (name : String) :
    (∀ c ∈ (sanitizeTableName name).data, c.isAlphanum = true ∨ c = '_') ∧
    (sanitizeChars name.data = [] → sanitizeTableName name = "default_imported_data") ∧
    sanitizeTableName "" = "default_imported_data" := by
  refine ⟨?_, ?_, by decide⟩
  · intro c hc
    unfold sanitizeTableName at hc
    by_cases he : (sanitizeChars name.data).isEmpty
    · rw [if_pos he] at hc
      exact (by decide :
        ∀ x ∈ ("default_imported_data" : String).data, x.isAlphanum = true ∨ x = '_') c hc
    · rw [if_neg he] at hc
      simp only [sanitizeChars, List.mem_map] at hc
      obtain ⟨a, -, rfl⟩ := hc
      by_cases ha : a.isAlphanum
      · left; simp [ha]
      · right; simp [ha]
  · intro h0
    unfold sanitizeTableName
    rw [h0]
    rfl

/-- C6 witness: a concrete sanitized character is alphanumeric or an
underscore, and the empty name gets the fallback. -/
theorem C6_witness :
    sanitizeTableName "" = "default_imported_data" ∧
    ('t'.isAlphanum = true ∨ 't' = '_') :=
  ⟨(C6_sanitize_safe "").2.2, (C6_sanitize_safe "transactions!").1 't' (by decide)⟩

/-- C7: when the uploaded file identity changes, the reset clears the
TabularValue, the loaded flag, the headers and the last query/result — in
the source's order, captured as the composition of the four clears — and
records the new identity; no field of the reset group survives. -/
theorem C7_reset_complete (st : SessionState) (n : String)
    (h : st.uploadedFileName ≠ some n) :
    reset_on_file_change st n =
      setFileIdentity (clearQueryResult (clearHeaders (clearTableFlag (clearDf st)))) n ∧
    (reset_on_file_change st n).dfLoaded = none ∧
    (reset_on_file_change st n).tableLoaded = false ∧
    (reset_on_file_change st n).headers = none ∧
    (reset_on_file_change st n).generatedSqlQuery = none ∧
    (reset_on_file_change st n).jsonDataForDownload = none ∧
    (reset_on_file_change st n).uploadedFileName = some n ∧
    (reset_on_file_change st n).currentTableName = TABLE_NAME := by
  unfold reset_on_file_change
  rw [if_neg h]
  simp [setFileIdentity, clearQueryResult, clearHeaders, clearTableFlag, clearDf]

/-- C7 witness: a stale session uploading `B.csv` after `A.csv` keeps no
stale query, flag, headers or frame. -/
theorem C7_witness :
    (reset_on_file_change stStale "B.csv").dfLoaded = none ∧
    (reset_on_file_change stStale "B.csv").tableLoaded = false ∧
    (reset_on_file_change stStale "B.csv").generatedSqlQuery = none :=
  ⟨(C7_reset_complete stStale "B.csv" (by decide)).2.1,
   (C7_reset_complete stStale "B.csv" (by decide)).2.2.1,
   (C7_reset_complete stStale "B.csv" (by decide)).2.2.2.2.1⟩

/-- C8 counterexample: uploading `data.txt` (neither `.csv` nor
`.xls`/`.xlsx`) surfaces no error at all and leaves the session state
exactly as it was — the extractor does not fail with a reported
`UnsupportedFormat` error as claimed. -/
theorem C8_counterexample :
    process_upload "data.txt" (Except.ok tSample) (Except.ok tSample) initialState =
      { state := initialState, errorMsg := none, advisory := false } := by
  decide

/-- C8 (amended): for a file whose name ends in none of the recognized
extensions, the upload block silently does nothing: no TabularValue is
produced, no error is surfaced, and the session state is unchanged. -/
theorem C8_silent_ignore (fileName : String) (cp xp : Except String Table)
    (st : SessionState) (hdf : st.dfLoaded = none)
    (hcsv : strEndsWith fileName ".csv" = false)
    (hxls : strEndsWith fileName ".xls" = false)
    (hxlsx : strEndsWith fileName ".xlsx" = false) :
    process_upload fileName cp xp st =
      { state := st, errorMsg := none, advisory := false } := by
  unfold process_upload dispatch_extension
  rw [if_neg (by simp [hdf])]
  rw [if_neg (by simp [hcsv]), if_neg (by simp [hxls, hxlsx])]

/-- C8 witness for the amended statement: the concrete file `data.txt`. -/
theorem C8_witness :
    process_upload "data.txt" (Except.ok tEmptyA) (Except.ok tEmptyA) initialState =
      { state := initialState, errorMsg := none, advisory := false } :=
  C8_silent_ignore "data.txt" (Except.ok tEmptyA) (Except.ok tEmptyA) initialState
    (by decide) (by decide) (by decide) (by decide)

/-- Loading the same table twice in a row (same backend target, same
relation name), as the idempotence property repeats the operation. -/
def load_twice (df : Table) (p tn : String) (w : World) (st : SessionState) : LoadOutcome :=
  let o1 := load_df_to_sqlite df p tn w st
  load_df_to_sqlite df p tn o1.world o1.state

/-- The post-sanitization table the ingestion pipeline materializes. -/
def ingest_table (headers : List String) (rows : List (List String)) : Table :=
  { header := (process_file_headers headers).1, rows := rows }

/-- C2: whenever the backend raises, the Query Executor returns the
classified error: a message containing the relation-not-found phrase and
the configured relation name becomes `RelationNotLoaded` with reload
guidance, every other backend error becomes `ExecutionError` carrying the
backend's raw message; a statement returning no rows is a successful
empty tabular result. -/
theorem C2_executor_classifies (w : World) (dbPath tname : String) (loaded : Bool)
    (q : Query) (e : String)
    (hg1 : ¬(fileExists w dbPath = false ∧ dbPath ≠ ":memory:"))
    (hg2 : ¬(loaded = false ∧ dbPath = ":memory:"))
    (herr : run_sql (connect w dbPath) q = Except.error e) :
    execute_query_on_db q dbPath tname w loaded = classify_exec_error e tname ∧
    ((strContains (strToLower e) "no such table" &&
        strContains (strToLower e) tname) = true →
      classify_exec_error e tname = ExecResult.relationNotLoaded
        ("Error: " ++ e ++ ". Table '" ++ tname ++ "' not found. Reload file.")) ∧
    ((strContains (strToLower e) "no such table" &&
        strContains (strToLower e) tname) = false →
      classify_exec_error e tname =
        ExecResult.executionError ("Error executing query: " ++ e)) ∧
    (∀ (t : String) (hdr : List String),
      dbGet (connect w dbPath) t = some { header := hdr, rows := [] } →
      execute_query_on_db (Query.selectAllFrom t) dbPath tname w loaded =
        ExecResult.table { header := hdr, rows := [] }) := by
  refine ⟨?_, ?_, ?_, ?_⟩
  · unfold execute_query_on_db
    rw [if_neg hg1, if_neg hg2, herr]
  · intro hc
    unfold classify_exec_error
    rw [if_pos hc]
  · intro hc
    unfold classify_exec_error
    rw [if_neg (by simp [hc])]
  · intro t hdr hget
    unfold execute_query_on_db
    rw [if_neg hg1, if_neg hg2]
    simp only [run_sql]
    rw [hget]

/-- C2 witness: against the persistent file, a statement naming a missing
relation other than the configured one is an `ExecutionError` with the
backend's raw message, and selecting from the loaded empty relation
succeeds with an empty result. -/
theorem C2_witness :
    execute_query_on_db (Query.selectAllFrom "missing") DB_NAME "transactions"
        wLoaded true =
      ExecResult.executionError "Error executing query: no such table: missing" ∧
    execute_query_on_db (Query.selectAllFrom "transactions") DB_NAME "transactions"
        wLoaded true =
      ExecResult.table { header := ["a"], rows := [] } := by
  have h := C2_executor_classifies wLoaded DB_NAME "transactions" true
    (Query.selectAllFrom "missing") "no such table: missing"
    (by decide) (by decide) (by rfl)
  exact ⟨by rw [h.1, h.2.2.1 (by decide)]; rfl,
         h.2.2.2 "transactions" ["a"] (by rfl)⟩

/-- C5: loading a TabularValue into the persistent target twice under the
same relation name leaves the world exactly as after the first load, and
the resulting relation is exactly the loaded table — the original row
count, no duplicated rows. -/
theorem C5_load_replace_idempotent (df : Table) (tname : String) (w : World)
    (st : SessionState) (hnodup : df.header.Nodup) :
    (load_twice df DB_NAME tname w st).world =
      (load_df_to_sqlite df DB_NAME tname w st).world ∧
    dbGet (readFileDB (load_twice df DB_NAME tname w st).world DB_NAME)
        (sanitizeTableName tname) = some df ∧
    (dbGet (readFileDB (load_twice df DB_NAME tname w st).world DB_NAME)
        (sanitizeTableName tname)).map (fun t => t.rows.length) =
      some df.rows.length := by
  have hfd : firstDup df.header = none := firstDup_eq_none.mpr hnodup
  have hmem : DB_NAME ≠ ":memory:" := by decide
  have hget : dbGet (readFileDB (load_twice df DB_NAME tname w st).world DB_NAME)
      (sanitizeTableName tname) = some df := by
    simp only [load_twice, load_df_to_sqlite, to_sql_replace, hfd]
    rw [readFileDB_closeConn _ _ _ hmem, dbGet_dbSet_self]
  refine ⟨?_, hget, by rw [hget]; rfl⟩
  simp only [load_twice, load_df_to_sqlite, to_sql_replace, hfd]
  rw [connect_closeConn _ _ _ hmem, dbSet_dbSet, closeConn_closeConn _ _ _ _ hmem]

/-- C5 witness: loading the sample table twice leaves exactly the sample
table under the sanitized relation name. -/
theorem C5_witness :
    dbGet (readFileDB (load_twice tSample DB_NAME TABLE_NAME wEmpty initialState).world
        DB_NAME) (sanitizeTableName TABLE_NAME) = some tSample :=
  (C5_load_replace_idempotent tSample TABLE_NAME wEmpty initialState (by decide)).2.1

/-- C9: when header sanitization produces a collision, materialization
fails as a defined error — the loaded flag stays false and an error
message is surfaced — and afterwards a fresh connection to the same
backend target sees no relation under the sanitized name at all (the
replace-mode write drops any pre-existing relation before the failing
create, and the drop persists): in particular no relation with
duplicated column names is ever materialized. -/
theorem C9_collision_fails (headers : List String) (rows : List (List String))
    (dbPath : String) (w : World) (st : SessionState)
    (hdup : ¬ (process_file_headers headers).1.Nodup) :
    (load_df_to_sqlite (ingest_table headers rows) dbPath st.currentTableName w
        st).state.tableLoaded = false ∧
    (load_df_to_sqlite (ingest_table headers rows) dbPath st.currentTableName w
        st).errorMsg.isSome = true ∧
    dbGet (connect (load_df_to_sqlite (ingest_table headers rows) dbPath
        st.currentTableName w st).world dbPath)
      (sanitizeTableName st.currentTableName) = none := by
  have hne : firstDup (ingest_table headers rows).header ≠ none := by
    intro h0
    exact hdup (firstDup_eq_none.mp h0)
  obtain ⟨c, hc⟩ : ∃ c, firstDup (ingest_table headers rows).header = some c := by
    cases hx : firstDup (ingest_table headers rows).header with
    | none => exact absurd hx hne
    | some c => exact ⟨c, rfl⟩
  simp only [load_df_to_sqlite, to_sql_replace, hc]
  exact ⟨trivial, rfl,
    dbGet_connect_closeConn_dbDrop w dbPath (sanitizeTableName st.currentTableName)
      (connect w dbPath)⟩

/-- C9 witness: headers `["Amount", "Amount$"]` collide after stripping
`'$'`; the load fails and the backend target holds no relation under the
sanitized name afterwards. -/
theorem C9_witness :
    (load_df_to_sqlite (ingest_table ["Amount", "Amount$"] [["1", "2"]]) DB_NAME
        initialState.currentTableName wEmpty initialState).state.tableLoaded = false ∧
    (load_df_to_sqlite (ingest_table ["Amount", "Amount$"] [["1", "2"]]) DB_NAME
        initialState.currentTableName wEmpty initialState).errorMsg.isSome = true ∧
    dbGet (connect (load_df_to_sqlite (ingest_table ["Amount", "Amount$"] [["1", "2"]])
        DB_NAME initialState.currentTableName wEmpty initialState).world DB_NAME)
      (sanitizeTableName initialState.currentTableName) = none :=
  ⟨(C9_collision_fails ["Amount", "Amount$"] [["1", "2"]] DB_NAME wEmpty initialState
      (by decide)).1,
   (C9_collision_fails ["Amount", "Amount$"] [["1", "2"]] DB_NAME wEmpty initialState
      (by decide)).2.1,
   (C9_collision_fails ["Amount", "Amount$"] [["1", "2"]] DB_NAME wEmpty initialState
      (by decide)).2.2⟩

/-- C10: with the `":memory:"` target, a load reports success, yet every
subsequent execution of a statement referencing the loaded relation fails
with the relation-not-found classification, because load and execute each
open their own connection and a fresh in-memory database is empty; with
the persistent target the same load/execute round trip returns the loaded
table. -/
theorem C10_memory_never_sees_relation (df : Table) (w : World) (st : SessionState)
    (hnodup : df.header.Nodup) :
    (load_df_to_sqlite df ":memory:" TABLE_NAME w st).state.tableLoaded = true ∧
    (∀ q : Query, referencesTable q TABLE_NAME →
      execute_query_on_db q ":memory:" TABLE_NAME
          (load_df_to_sqlite df ":memory:" TABLE_NAME w st).world
          (load_df_to_sqlite df ":memory:" TABLE_NAME w st).state.tableLoaded =
        ExecResult.relationNotLoaded
          "Error: no such table: transactions. Table 'transactions' not found. Reload file.") ∧
    (∀ (w2 : World) (st2 : SessionState),
      execute_query_on_db (Query.selectAllFrom TABLE_NAME) DB_NAME TABLE_NAME
          (load_df_to_sqlite df DB_NAME TABLE_NAME w2 st2).world
          (load_df_to_sqlite df DB_NAME TABLE_NAME w2 st2).state.tableLoaded =
        ExecResult.table df) := by
  have hfd : firstDup df.header = none := firstDup_eq_none.mpr hnodup
  have hsane : sanitizeTableName TABLE_NAME = TABLE_NAME := by decide
  have hmem : DB_NAME ≠ ":memory:" := by decide
  refine ⟨by simp only [load_df_to_sqlite, to_sql_replace, hfd], ?_, ?_⟩
  · intro q hq
    cases q with
    | selectAllFrom s =>
      have hs : s = TABLE_NAME := hq
      subst hs
      simp only [load_df_to_sqlite, to_sql_replace, hfd]
      unfold execute_query_on_db
      rw [if_neg (fun hcon => hcon.2 rfl), if_neg (by simp)]
      have hconn : connect (closeConn w ":memory:"
          (dbSet (connect w ":memory:") (sanitizeTableName TABLE_NAME) df)) ":memory:" =
          [] := by
        unfold connect
        rw [if_pos rfl]
      rw [hconn]
      decide
  · intro w2 st2
    simp only [load_df_to_sqlite, to_sql_replace, hfd]
    unfold execute_query_on_db
    rw [if_neg (by
      rw [fileExists_closeConn _ _ _ hmem]
      simp),
      if_neg (by simp [hmem]),
      connect_closeConn _ _ _ hmem]
    simp only [run_sql]
    rw [hsane, dbGet_dbSet_self]

/-- C10 witness: after an in-memory load of the sample table, `SELECT *
FROM transactions` is classified `RelationNotLoaded` even though the
loaded flag is set; the same round trip on the persistent file returns
the sample table. -/
theorem C10_witness :
    execute_query_on_db (Query.selectAllFrom "transactions") ":memory:" TABLE_NAME
        (load_df_to_sqlite tSample ":memory:" TABLE_NAME wEmpty initialState).world
        (load_df_to_sqlite tSample ":memory:" TABLE_NAME wEmpty
          initialState).state.tableLoaded =
      ExecResult.relationNotLoaded
        "Error: no such table: transactions. Table 'transactions' not found. Reload file." ∧
    execute_query_on_db (Query.selectAllFrom TABLE_NAME) DB_NAME TABLE_NAME
        (load_df_to_sqlite tSample DB_NAME TABLE_NAME wEmpty initialState).world
        (load_df_to_sqlite tSample DB_NAME TABLE_NAME wEmpty
          initialState).state.tableLoaded =
      ExecResult.table tSample :=
  ⟨(C10_memory_never_sees_relation tSample wEmpty initialState (by decide)).2.1
      (Query.selectAllFrom "transactions") rfl,
   (C10_memory_never_sees_relation tSample wEmpty initialState (by decide)).2.2
      wEmpty initialState⟩

end CsvSql
